import Mathlib

/-!
Shallow embedding of the fund-transfer subsystem of `lapore-capital`
(`src/lib/transactionService.ts`, class `TransactionService`), together with
proofs checking the specification's claims about it.

Modelling conventions:
- JavaScript numbers (balances, amounts) are modelled as integers `ℤ`
  (amounts in minor units; every property claimed is about `+`, `-`, `<`,
  which behave identically over the reals and over `ℤ`).
- The Supabase database is a `DB` value: a list of profile rows and a list of
  transaction rows.  `.eq(col, x).single()` succeeds exactly when the filter
  yields exactly one row; `.update(...).eq(col, x)` rewrites every matching
  row; `.insert(...)` appends a row.
- Each remote call can fail for infrastructure reasons; the `DbFaults` record
  says which of `sendFunds`'s five Supabase calls fails, so that every error
  path of the source is reachable in the model.
- ISO timestamp strings are abstracted as naturals (`new Date().toISOString()`
  is monotone in time, and the history query orders by this column).
-/

namespace Lapore

/-- A row of the `profiles` table (fields used by `TransactionService`). -/
structure Profile where
  id : String
  full_name : String
  username : String
  balance : ℤ
  deriving Repr, DecidableEq

/-- A row of the `transactions` table, as inserted by `sendFunds` step 3. -/
structure TxRow where
  sender_id : String
  receiver_id : String
  amount : ℤ
  currency : String
  timestamp : Nat
  description : String
  deriving Repr, DecidableEq

/-- The two tables `sendFunds` touches. -/
structure DB where
  profiles : List Profile
  transactions : List TxRow
  deriving Repr, DecidableEq

/-- The argument record of `sendFunds` (`TransactionRequest` in
`src/context/types.ts`); `currency` and `description` are optional. -/
structure TransactionRequest where
  sender_id : String
  receiver_id : String
  amount : ℤ
  currency : Option String
  description : Option String
  deriving Repr, DecidableEq

/-- Which of the five Supabase calls inside `sendFunds` fails with an
infrastructure error (`error` non-null in the source). -/
structure DbFaults where
  senderSelectFails : Bool
  receiverSelectFails : Bool
  txInsertFails : Bool
  senderUpdateFails : Bool
  receiverUpdateFails : Bool
  deriving Repr, DecidableEq

/-- The fault assignment in which every Supabase call succeeds. -/
def DbFaults.none : DbFaults := ⟨false, false, false, false, false⟩

/-- The error strings `sendFunds` can return (field `error` of
`TransactionResult`), one constructor per `return { success: false, ... }`
site; `insufficientBalance` carries the balance interpolated into the
message. -/
inductive SendError where
  | amountNotPositive
  | selfTransfer
  | senderNotFound
  | insufficientBalance (available : ℤ)
  | receiverNotFound
  | createTransactionFailed
  | updateSenderFailed
  | updateReceiverFailed
  deriving Repr, DecidableEq

/-- The `TransactionResult` of `sendFunds`: success carries the inserted
transaction row, failure carries the error. -/
inductive SendOutcome where
  | ok (tx : TxRow)
  | err (e : SendError)
  deriving Repr, DecidableEq

/-- Supabase `.single()`: succeeds iff the filtered result set has exactly
one row. -/
def single {α : Type} : List α → Option α
  | [p] => some p
  | _ => Option.none

/-- Model of `supabase.from('profiles').select('*').eq('id', i).single()`. -/
def getProfileById (db : DB) (i : String) : Option Profile :=
  single (db.profiles.filter (fun p => p.id == i))

/-- Model of `supabase.from('profiles').select('*').eq('username', u).single()`. -/
def getProfileByUsername (db : DB) (u : String) : Option Profile :=
  single (db.profiles.filter (fun p => p.username == u))

/-- Model of the balance update `.eq('id', i)` on the `profiles` table. -/
def setBalance (db : DB) (i : String) (b : ℤ) : DB :=
  { db with profiles :=
      db.profiles.map (fun p => if p.id == i then { p with balance := b } else p) }

/-- Model of `supabase.from('transactions').insert(row)`. -/
def insertTx (db : DB) (tx : TxRow) : DB :=
  { db with transactions := db.transactions ++ [tx] }

/-- The default description built in step 3 of `sendFunds`; JavaScript
`description || default` falls back both when `description` is undefined and
when it is the empty string (falsy). -/
def descriptionOf (req : TransactionRequest) (sp rp : Profile) : String :=
  match req.description with
  | some d => if d == "" then "Transfer from " ++ sp.full_name ++ " to " ++ rp.full_name else d
  | Option.none => "Transfer from " ++ sp.full_name ++ " to " ++ rp.full_name

/-- Translation of `TransactionService.sendFunds`, branch for branch, from
`src/lib/transactionService.ts` lines 18-121.  `now` stands for
`new Date().toISOString()`.  A failed select is indistinguishable from a
missing row in the source (`if (senderError || !senderProfile)`), so a fault
on a select produces the same not-found error. -/
def sendFunds (req : TransactionRequest) (faults : DbFaults) (now : Nat)
    (db : DB) : SendOutcome × DB :=
  if req.amount ≤ 0 then (SendOutcome.err SendError.amountNotPositive, db)
  else if req.sender_id == req.receiver_id then (SendOutcome.err SendError.selfTransfer, db)
  else
    match (if faults.senderSelectFails then Option.none else getProfileById db req.sender_id) with
    | Option.none => (SendOutcome.err SendError.senderNotFound, db)
    | some senderProfile =>
      if senderProfile.balance < req.amount then
        (SendOutcome.err (SendError.insufficientBalance senderProfile.balance), db)
      else
        match (if faults.receiverSelectFails then Option.none else getProfileById db req.receiver_id) with
        | Option.none => (SendOutcome.err SendError.receiverNotFound, db)
        | some receiverProfile =>
          if faults.txInsertFails then (SendOutcome.err SendError.createTransactionFailed, db)
          else
            let tx : TxRow :=
              { sender_id := req.sender_id
                receiver_id := req.receiver_id
                amount := req.amount
                currency := req.currency.getD "PHP"
                timestamp := now
                description := descriptionOf req senderProfile receiverProfile }
            let db1 := insertTx db tx
            if faults.senderUpdateFails then (SendOutcome.err SendError.updateSenderFailed, db1)
            else
              let db2 := setBalance db1 req.sender_id (senderProfile.balance - req.amount)
              if faults.receiverUpdateFails then (SendOutcome.err SendError.updateReceiverFailed, db2)
              else
                let db3 := setBalance db2 req.receiver_id (receiverProfile.balance + req.amount)
                (SendOutcome.ok tx, db3)

/-- The balance stored for account `i`, when `i` resolves to exactly one
profile row. -/
def getBalance (db : DB) (i : String) : Option ℤ :=
  (getProfileById db i).map Profile.balance

/-! ### Basic lemmas about the database operations -/

theorem single_map {α β : Type} (f : α → β) (l : List α) :
    single (l.map f) = (single l).map f := by
  match l with
  | [] => rfl
  | [a] => rfl
  | a :: b :: t => rfl

theorem filter_map_comm {α : Type} (f : α → α) (q : α → Bool) (l : List α)
    (hq : ∀ x, q (f x) = q x) :
    (l.map f).filter q = (l.filter q).map f := by
  induction l with
  | nil => rfl
  | cons a t ih =>
    simp only [List.map_cons, List.filter_cons, hq a]
    cases q a <;> simp [ih]

theorem getProfileById_setBalance (db : DB) (i : String) (b : ℤ) (j : String) :
    getProfileById (setBalance db i b) j =
      (getProfileById db j).map (fun p => if p.id == i then { p with balance := b } else p) := by
  unfold getProfileById setBalance
  rw [filter_map_comm, single_map]
  intro x
  by_cases hx : x.id == i <;> simp [hx]

theorem getProfileById_insertTx (db : DB) (tx : TxRow) (j : String) :
    getProfileById (insertTx db tx) j = getProfileById db j := rfl

theorem transactions_setBalance (db : DB) (i : String) (b : ℤ) :
    (setBalance db i b).transactions = db.transactions := rfl

theorem id_of_getProfileById {db : DB} {j : String} {p : Profile}
    (h : getProfileById db j = some p) : p.id = j := by
  unfold getProfileById at h
  have hmem : p ∈ db.profiles.filter (fun q => q.id == j) := by
    cases hl : db.profiles.filter (fun q => q.id == j) with
    | nil => rw [hl] at h; cases h
    | cons a t =>
      cases t with
      | nil => rw [hl] at h; cases h; simp
      | cons b t' => rw [hl] at h; cases h
  have := List.of_mem_filter hmem
  simpa using this

theorem mem_of_getProfileById {db : DB} {j : String} {p : Profile}
    (h : getProfileById db j = some p) : p ∈ db.profiles := by
  unfold getProfileById at h
  have hmem : p ∈ db.profiles.filter (fun q => q.id == j) := by
    cases hl : db.profiles.filter (fun q => q.id == j) with
    | nil => rw [hl] at h; cases h
    | cons a t =>
      cases t with
      | nil => rw [hl] at h; cases h; simp
      | cons b t' => rw [hl] at h; cases h
  exact List.mem_of_mem_filter hmem

theorem getBalance_setBalance_same {db : DB} {i : String} {p : Profile}
    (h : getProfileById db i = some p) (b : ℤ) :
    getBalance (setBalance db i b) i = some b := by
  unfold getBalance
  rw [getProfileById_setBalance, h]
  have := id_of_getProfileById h
  simp [this]

theorem getBalance_setBalance_other {db : DB} (i : String) (b : ℤ) {j : String}
    (hne : i ≠ j) :
    getBalance (setBalance db i b) j = getBalance db j := by
  unfold getBalance
  rw [getProfileById_setBalance]
  cases h : getProfileById db j with
  | none => rfl
  | some p =>
    have hid := id_of_getProfileById h
    have hpi : p.id ≠ i := fun he => hne (by rw [← he, hid])
    simp [hpi]

/-- Elimination principle for a successful `sendFunds` run: the checks all
passed, no call faulted, and the final database is the initial one with the
transaction row appended and the two absolute balance writes applied. -/
theorem sendFunds_ok_elim {req : TransactionRequest} {faults : DbFaults}
    {now : Nat} {db : DB} {tx : TxRow} {db' : DB}
    (h : sendFunds req faults now db = (SendOutcome.ok tx, db')) :
    ∃ sp rp, 0 < req.amount ∧ req.sender_id ≠ req.receiver_id ∧
      faults.senderSelectFails = false ∧ faults.receiverSelectFails = false ∧
      faults.txInsertFails = false ∧ faults.senderUpdateFails = false ∧
      faults.receiverUpdateFails = false ∧
      getProfileById db req.sender_id = some sp ∧
      getProfileById db req.receiver_id = some rp ∧
      req.amount ≤ sp.balance ∧
      tx = { sender_id := req.sender_id, receiver_id := req.receiver_id,
             amount := req.amount, currency := req.currency.getD "PHP",
             timestamp := now, description := descriptionOf req sp rp } ∧
      db' = setBalance (setBalance (insertTx db tx) req.sender_id (sp.balance - req.amount))
              req.receiver_id (rp.balance + req.amount) := by
  simp only [sendFunds] at h
  split at h
  · cases h
  next hamt =>
    split at h
    · cases h
    next hself =>
      split at h
      · cases h
      next senderProfile hs =>
        split at h
        · cases h
        next hbal =>
          split at h
          · cases h
          next receiverProfile hr =>
            split at h
            · cases h
            next hins =>
              split at h
              · cases h
              next hsu =>
                split at h
                · cases h
                next hru =>
                  have hs' : getProfileById db req.sender_id = some senderProfile := by
                    by_cases hf : faults.senderSelectFails = true
                    · rw [if_pos hf] at hs; cases hs
                    · rwa [if_neg hf] at hs
                  have hssf : faults.senderSelectFails = false := by
                    by_cases hf : faults.senderSelectFails = true
                    · rw [if_pos hf] at hs; cases hs
                    · simpa using hf
                  have hr' : getProfileById db req.receiver_id = some receiverProfile := by
                    by_cases hf : faults.receiverSelectFails = true
                    · rw [if_pos hf] at hr; cases hr
                    · rwa [if_neg hf] at hr
                  have hrsf : faults.receiverSelectFails = false := by
                    by_cases hf : faults.receiverSelectFails = true
                    · rw [if_pos hf] at hr; cases hr
                    · simpa using hf
                  rw [Prod.mk.injEq, SendOutcome.ok.injEq] at h
                  obtain ⟨htx, hdb⟩ := h
                  subst htx
                  refine ⟨senderProfile, receiverProfile, not_le.mp hamt,
                    by simpa using hself, hssf, hrsf, by simpa using hins,
                    by simpa using hsu, by simpa using hru, hs', hr',
                    not_lt.mp hbal, rfl, hdb.symm⟩

/-! ### Claim C1: conservation on success -/

/-- Claim C1: for every successful `sendFunds` call, the sender's balance
decreases by exactly the transferred amount, the receiver's balance
increases by exactly that amount, and the sum of the two balances is
unchanged. -/
theorem c1_transfer_conservation {req : TransactionRequest} {faults : DbFaults}
    {now : Nat} {db : DB} {tx : TxRow} {db' : DB}
    (h : sendFunds req faults now db = (SendOutcome.ok tx, db')) :
    ∃ sb rb, getBalance db req.sender_id = some sb ∧
      getBalance db req.receiver_id = some rb ∧
      getBalance db' req.sender_id = some (sb - req.amount) ∧
      getBalance db' req.receiver_id = some (rb + req.amount) ∧
      sb - req.amount + (rb + req.amount) = sb + rb := by
  obtain ⟨sp, rp, hamt, hne, _, _, _, _, _, hs, hr, hbal, htx, hdb⟩ := sendFunds_ok_elim h
  refine ⟨sp.balance, rp.balance, ?_, ?_, ?_, ?_, by ring⟩
  · unfold getBalance; rw [hs]; rfl
  · unfold getBalance; rw [hr]; rfl
  · subst hdb
    rw [getBalance_setBalance_other _ _ (Ne.symm hne)]
    exact getBalance_setBalance_same hs _
  · subst hdb
    apply getBalance_setBalance_same
    rw [getProfileById_setBalance, getProfileById_insertTx, hr]
    rfl

/-- A concrete database with two accounts, used by witnesses: Alice holds
1000, Bob holds 50. -/
def dbW : DB :=
  ⟨[⟨"a1", "Alice", "alice", 1000⟩, ⟨"b2", "Bob", "bob", 50⟩], []⟩

/-- A concrete request: Alice sends 250 to Bob. -/
def reqW : TransactionRequest := ⟨"a1", "b2", 250, Option.none, Option.none⟩

/-- The transaction row the concrete request inserts at time 7. -/
def txW : TxRow := ⟨"a1", "b2", 250, "PHP", 7, "Transfer from Alice to Bob"⟩

theorem c1_transfer_conservation_witness :
    ∃ sb rb, getBalance dbW reqW.sender_id = some sb ∧
      getBalance dbW reqW.receiver_id = some rb ∧
      getBalance (sendFunds reqW DbFaults.none 7 dbW).2 reqW.sender_id = some (sb - reqW.amount) ∧
      getBalance (sendFunds reqW DbFaults.none 7 dbW).2 reqW.receiver_id = some (rb + reqW.amount) ∧
      sb - reqW.amount + (rb + reqW.amount) = sb + rb :=
  @c1_transfer_conservation reqW DbFaults.none 7 dbW txW
    (sendFunds reqW DbFaults.none 7 dbW).2 (by decide)

/-! ### Precondition order -/

/-- The precondition phase of `sendFunds`, characterized check by check: the
checks run in the order amount, self-transfer, sender lookup, sender balance,
receiver lookup, and the first failing check returns with no mutation. -/
theorem sendFunds_precheck (req : TransactionRequest) (faults : DbFaults)
    (now : Nat) (db : DB) :
    (req.amount ≤ 0 →
      sendFunds req faults now db = (SendOutcome.err SendError.amountNotPositive, db)) ∧
    (0 < req.amount → req.sender_id = req.receiver_id →
      sendFunds req faults now db = (SendOutcome.err SendError.selfTransfer, db)) ∧
    (0 < req.amount → req.sender_id ≠ req.receiver_id →
      (if faults.senderSelectFails then Option.none else getProfileById db req.sender_id) = Option.none →
      sendFunds req faults now db = (SendOutcome.err SendError.senderNotFound, db)) ∧
    (∀ sp, 0 < req.amount → req.sender_id ≠ req.receiver_id →
      (if faults.senderSelectFails then Option.none else getProfileById db req.sender_id) = some sp →
      sp.balance < req.amount →
      sendFunds req faults now db = (SendOutcome.err (SendError.insufficientBalance sp.balance), db)) ∧
    (∀ sp, 0 < req.amount → req.sender_id ≠ req.receiver_id →
      (if faults.senderSelectFails then Option.none else getProfileById db req.sender_id) = some sp →
      req.amount ≤ sp.balance →
      (if faults.receiverSelectFails then Option.none else getProfileById db req.receiver_id) = Option.none →
      sendFunds req faults now db = (SendOutcome.err SendError.receiverNotFound, db)) ∧
    (∀ sp rp, 0 < req.amount → req.sender_id ≠ req.receiver_id →
      (if faults.senderSelectFails then Option.none else getProfileById db req.sender_id) = some sp →
      req.amount ≤ sp.balance →
      (if faults.receiverSelectFails then Option.none else getProfileById db req.receiver_id) = some rp →
      faults.txInsertFails = true →
      sendFunds req faults now db = (SendOutcome.err SendError.createTransactionFailed, db)) := by
  refine ⟨?_, ?_, ?_, ?_, ?_, ?_⟩
  · intro h
    unfold sendFunds
    rw [if_pos h]
  · intro h1 h2
    unfold sendFunds
    rw [if_neg (not_le.mpr h1), if_pos (by simpa using h2)]
  · intro h1 h2 h3
    unfold sendFunds
    rw [if_neg (not_le.mpr h1), if_neg (by simpa using h2), h3]
  · intro sp h1 h2 h3 h4
    unfold sendFunds
    rw [if_neg (not_le.mpr h1), if_neg (by simpa using h2), h3]
    simp only [if_pos h4]
  · intro sp h1 h2 h3 h4 h5
    unfold sendFunds
    rw [if_neg (not_le.mpr h1), if_neg (by simpa using h2), h3]
    simp only [if_neg (not_lt.mpr h4)]
    rw [h5]
  · intro sp rp h1 h2 h3 h4 h5 h6
    unfold sendFunds
    rw [if_neg (not_le.mpr h1), if_neg (by simpa using h2), h3]
    simp only [if_neg (not_lt.mpr h4)]
    rw [h5]
    simp only [if_pos h6]

/-! ### Claim C3: order of the precondition checks -/

/-- A database holding only Alice with balance 10; there is no receiver. -/
def dbC3 : DB := ⟨[⟨"a1", "Alice", "alice", 10⟩], []⟩

/-- Alice tries to send 20 to a non-existent account. -/
def reqC3 : TransactionRequest := ⟨"a1", "ghost", 20, Option.none, Option.none⟩

/-- Claim C3 as stated is false: on a request whose receiver does not exist
and whose sender balance (10) is below the amount (20), `sendFunds` returns
the insufficient-balance error, not the receiver-not-found error, because the
source checks the balance (line 43) before it looks up the receiver
(line 51). -/
theorem c3_counterexample :
    getProfileById dbC3 reqC3.receiver_id = Option.none ∧
    getBalance dbC3 reqC3.sender_id = some 10 ∧ reqC3.amount = 20 ∧
    (sendFunds reqC3 DbFaults.none 0 dbC3).1 =
      SendOutcome.err (SendError.insufficientBalance 10) ∧
    (sendFunds reqC3 DbFaults.none 0 dbC3).1 ≠
      SendOutcome.err SendError.receiverNotFound := by decide

/-- Claim C3 (amended): `sendFunds` checks its preconditions in the fixed
order amount > 0, sender ≠ receiver, sender exists, sender balance ≥ amount,
receiver exists, the first failing check short-circuiting with no mutation;
in particular a call whose receiver does not exist and whose sender balance
is below the amount fails with the insufficient-balance error.  A failed
sender/receiver select counts as the account not existing, as in the
source. -/
theorem c3_check_order (req : TransactionRequest) (faults : DbFaults)
    (now : Nat) (db : DB) :
    (req.amount ≤ 0 →
      sendFunds req faults now db = (SendOutcome.err SendError.amountNotPositive, db)) ∧
    (0 < req.amount → req.sender_id = req.receiver_id →
      sendFunds req faults now db = (SendOutcome.err SendError.selfTransfer, db)) ∧
    (0 < req.amount → req.sender_id ≠ req.receiver_id →
      (if faults.senderSelectFails then Option.none else getProfileById db req.sender_id) = Option.none →
      sendFunds req faults now db = (SendOutcome.err SendError.senderNotFound, db)) ∧
    (∀ sp, 0 < req.amount → req.sender_id ≠ req.receiver_id →
      (if faults.senderSelectFails then Option.none else getProfileById db req.sender_id) = some sp →
      sp.balance < req.amount →
      sendFunds req faults now db = (SendOutcome.err (SendError.insufficientBalance sp.balance), db)) ∧
    (∀ sp, 0 < req.amount → req.sender_id ≠ req.receiver_id →
      (if faults.senderSelectFails then Option.none else getProfileById db req.sender_id) = some sp →
      req.amount ≤ sp.balance →
      (if faults.receiverSelectFails then Option.none else getProfileById db req.receiver_id) = Option.none →
      sendFunds req faults now db = (SendOutcome.err SendError.receiverNotFound, db)) :=
  ⟨(sendFunds_precheck req faults now db).1,
   (sendFunds_precheck req faults now db).2.1,
   (sendFunds_precheck req faults now db).2.2.1,
   (sendFunds_precheck req faults now db).2.2.2.1,
   (sendFunds_precheck req faults now db).2.2.2.2.1⟩

/-- Alice, with ample balance, sends 5 to a non-existent account. -/
def reqC3w : TransactionRequest := ⟨"a1", "ghost", 5, Option.none, Option.none⟩

theorem c3_check_order_witness :
    sendFunds reqC3w DbFaults.none 0 dbC3 =
      (SendOutcome.err SendError.receiverNotFound, dbC3) :=
  (c3_check_order reqC3w DbFaults.none 0 dbC3).2.2.2.2
    ⟨"a1", "Alice", "alice", 10⟩ (by decide) (by decide) (by decide)
    (by decide) (by decide)

/-! ### Error paths of sendFunds -/

/-- Elimination principle for a failed `sendFunds` run: every error before
the balance updates leaves the database untouched; a failed sender update
leaves the inserted transaction row behind; a failed receiver update leaves
both the inserted row and the sender debit behind. -/
theorem sendFunds_err_elim {req : TransactionRequest} {faults : DbFaults}
    {now : Nat} {db : DB} {e : SendError} {db' : DB}
    (h : sendFunds req faults now db = (SendOutcome.err e, db')) :
    (db' = db ∧ e ≠ SendError.updateSenderFailed ∧ e ≠ SendError.updateReceiverFailed) ∨
    (∃ sp rp tx, e = SendError.updateSenderFailed ∧
      getProfileById db req.sender_id = some sp ∧
      getProfileById db req.receiver_id = some rp ∧
      req.amount ≤ sp.balance ∧ 0 < req.amount ∧ req.sender_id ≠ req.receiver_id ∧
      db' = insertTx db tx) ∨
    (∃ sp rp tx, e = SendError.updateReceiverFailed ∧
      getProfileById db req.sender_id = some sp ∧
      getProfileById db req.receiver_id = some rp ∧
      req.amount ≤ sp.balance ∧ 0 < req.amount ∧ req.sender_id ≠ req.receiver_id ∧
      db' = setBalance (insertTx db tx) req.sender_id (sp.balance - req.amount)) := by
  simp only [sendFunds] at h
  split at h
  · rw [Prod.mk.injEq, SendOutcome.err.injEq] at h
    obtain ⟨he, hdb⟩ := h
    exact Or.inl ⟨hdb.symm, by simp [← he], by simp [← he]⟩
  next hamt =>
    split at h
    · rw [Prod.mk.injEq, SendOutcome.err.injEq] at h
      obtain ⟨he, hdb⟩ := h
      exact Or.inl ⟨hdb.symm, by simp [← he], by simp [← he]⟩
    next hself =>
      split at h
      · rw [Prod.mk.injEq, SendOutcome.err.injEq] at h
        obtain ⟨he, hdb⟩ := h
        exact Or.inl ⟨hdb.symm, by simp [← he], by simp [← he]⟩
      next senderProfile hs =>
        split at h
        · rw [Prod.mk.injEq, SendOutcome.err.injEq] at h
          obtain ⟨he, hdb⟩ := h
          exact Or.inl ⟨hdb.symm, by simp [← he], by simp [← he]⟩
        next hbal =>
          split at h
          · rw [Prod.mk.injEq, SendOutcome.err.injEq] at h
            obtain ⟨he, hdb⟩ := h
            exact Or.inl ⟨hdb.symm, by simp [← he], by simp [← he]⟩
          next receiverProfile hr =>
            have hs' : getProfileById db req.sender_id = some senderProfile := by
              by_cases hf : faults.senderSelectFails = true
              · rw [if_pos hf] at hs; cases hs
              · rwa [if_neg hf] at hs
            have hr' : getProfileById db req.receiver_id = some receiverProfile := by
              by_cases hf : faults.receiverSelectFails = true
              · rw [if_pos hf] at hr; cases hr
              · rwa [if_neg hf] at hr
            split at h
            · rw [Prod.mk.injEq, SendOutcome.err.injEq] at h
              obtain ⟨he, hdb⟩ := h
              exact Or.inl ⟨hdb.symm, by simp [← he], by simp [← he]⟩
            next hins =>
              split at h
              · rw [Prod.mk.injEq, SendOutcome.err.injEq] at h
                obtain ⟨he, hdb⟩ := h
                refine Or.inr (Or.inl ⟨senderProfile, receiverProfile, _, he.symm,
                  hs', hr', not_lt.mp hbal, not_le.mp hamt, by simpa using hself, hdb.symm⟩)
              next hsu =>
                split at h
                · rw [Prod.mk.injEq, SendOutcome.err.injEq] at h
                  obtain ⟨he, hdb⟩ := h
                  refine Or.inr (Or.inr ⟨senderProfile, receiverProfile, _, he.symm,
                    hs', hr', not_lt.mp hbal, not_le.mp hamt, by simpa using hself, hdb.symm⟩)
                · cases h

/-! ### Claim C2: no compensation after a failed credit -/

/-- Fault pattern: only the receiver balance update fails. -/
def faultsRU : DbFaults := ⟨false, false, false, false, true⟩

/-- Claim C2 is violated by the code: when crediting the receiver fails
after the sender was debited, `sendFunds` returns the
failed-to-update-receiver error (which is not a ledger-write error) with
the sender still debited (Alice drops from 1000 to 750) and the receiver
unchanged — the debit is never reversed, although the code's own doc
comment promises atomic, consistent updates. -/
theorem c2_no_compensation_on_credit_failure :
    (sendFunds reqW faultsRU 7 dbW).1 = SendOutcome.err SendError.updateReceiverFailed ∧
    getBalance dbW "a1" = some 1000 ∧ getBalance dbW "b2" = some 50 ∧
    getBalance (sendFunds reqW faultsRU 7 dbW).2 "a1" = some 750 ∧
    getBalance (sendFunds reqW faultsRU 7 dbW).2 "b2" = some 50 := by decide

/-! ### Claim C4: number of ledger rows written -/

/-- Fault pattern: only the sender balance update fails. -/
def faultsSU : DbFaults := ⟨false, false, false, true, false⟩

/-- Claim C4 as stated is false: a `sendFunds` call that fails while
updating the sender balance still leaves one freshly appended transaction
row, because the row is inserted (line 64) before the balance updates
(lines 83, 94). -/
theorem c4_counterexample :
    (sendFunds reqW faultsSU 7 dbW).1 = SendOutcome.err SendError.updateSenderFailed ∧
    (sendFunds reqW faultsSU 7 dbW).2.transactions.length = dbW.transactions.length + 1 := by
  decide

/-- Claim C4 (amended): every successful `sendFunds` call appends exactly
one transaction row; a call that fails before the insert (validation,
lookups, balance check, or the insert itself) appends zero rows; a call
that fails in the balance updates after the insert leaves exactly the one
appended row despite returning an error. -/
theorem c4_ledger_row_count (req : TransactionRequest) (faults : DbFaults)
    (now : Nat) (db : DB) :
    (∀ tx db', sendFunds req faults now db = (SendOutcome.ok tx, db') →
      db'.transactions = db.transactions ++ [tx]) ∧
    (∀ e db', sendFunds req faults now db = (SendOutcome.err e, db') →
      ((e = SendError.updateSenderFailed ∨ e = SendError.updateReceiverFailed) →
        ∃ tx, db'.transactions = db.transactions ++ [tx]) ∧
      (e ≠ SendError.updateSenderFailed → e ≠ SendError.updateReceiverFailed →
        db'.transactions = db.transactions)) := by
  constructor
  · intro tx db' h
    obtain ⟨sp, rp, _, _, _, _, _, _, _, _, _, _, _, hdb⟩ := sendFunds_ok_elim h
    subst hdb
    rfl
  · intro e db' h
    rcases sendFunds_err_elim h with ⟨hdb, hne1, hne2⟩ | ⟨sp, rp, tx, he, _, _, _, _, _, hdb⟩ |
      ⟨sp, rp, tx, he, _, _, _, _, _, hdb⟩
    · exact ⟨fun hc => absurd hc (by simp [hne1, hne2]), fun _ _ => by rw [hdb]⟩
    · subst he
      exact ⟨fun _ => ⟨tx, by rw [hdb]; rfl⟩, fun hc _ => absurd rfl hc⟩
    · subst he
      exact ⟨fun _ => ⟨tx, by rw [hdb]; rfl⟩, fun _ hc => absurd rfl hc⟩

theorem c4_ledger_row_count_witness :
    (sendFunds reqW DbFaults.none 7 dbW).2.transactions = dbW.transactions ++ [txW] :=
  (c4_ledger_row_count reqW DbFaults.none 7 dbW).1 txW
    (sendFunds reqW DbFaults.none 7 dbW).2 (by decide)

/-! ### Claim C5: order of the mutations -/

/-- Fault pattern: only the transaction insert fails. -/
def faultsTI : DbFaults := ⟨false, false, true, false, false⟩

/-- Claim C5 as stated is false: the ledger write happens first, not last.
When the transaction insert fails, no money has moved (both balances are
untouched) and the error is the generic failed-to-create-record error, not
a money-did-move error; and when the later sender update fails, the ledger
row already exists while neither balance has changed — impossible if the
mutation order were debit, credit, then append. -/
theorem c5_counterexample :
    sendFunds reqW faultsTI 7 dbW = (SendOutcome.err SendError.createTransactionFailed, dbW) ∧
    (sendFunds reqW faultsSU 7 dbW).2.transactions = dbW.transactions ++ [txW] ∧
    getBalance (sendFunds reqW faultsSU 7 dbW).2 "a1" = some 1000 ∧
    getBalance (sendFunds reqW faultsSU 7 dbW).2 "b2" = some 50 := by decide

/-- Claim C5 (amended): `sendFunds` executes its mutations in the order
append the transaction row, then debit the sender, then credit the
receiver; when the ledger insert fails, no balances have changed and the
call returns the plain failed-to-create-record error with the database
untouched (there is no distinct money-did-move error in the code). -/
theorem c5_mutation_order (req : TransactionRequest) (faults : DbFaults)
    (now : Nat) (db : DB) :
    (∀ tx db', sendFunds req faults now db = (SendOutcome.ok tx, db') →
      ∃ sp rp, getProfileById db req.sender_id = some sp ∧
        getProfileById db req.receiver_id = some rp ∧
        db' = setBalance (setBalance (insertTx db tx) req.sender_id (sp.balance - req.amount))
                req.receiver_id (rp.balance + req.amount)) ∧
    (∀ sp rp, 0 < req.amount → req.sender_id ≠ req.receiver_id →
      (if faults.senderSelectFails then Option.none else getProfileById db req.sender_id) = some sp →
      req.amount ≤ sp.balance →
      (if faults.receiverSelectFails then Option.none else getProfileById db req.receiver_id) = some rp →
      faults.txInsertFails = true →
      sendFunds req faults now db = (SendOutcome.err SendError.createTransactionFailed, db)) := by
  constructor
  · intro tx db' h
    obtain ⟨sp, rp, _, _, _, _, _, _, _, hs, hr, _, _, hdb⟩ := sendFunds_ok_elim h
    exact ⟨sp, rp, hs, hr, hdb⟩
  · exact (sendFunds_precheck req faults now db).2.2.2.2.2

theorem c5_mutation_order_witness :
    sendFunds reqW faultsTI 7 dbW = (SendOutcome.err SendError.createTransactionFailed, dbW) :=
  (c5_mutation_order reqW faultsTI 7 dbW).2
    ⟨"a1", "Alice", "alice", 1000⟩ ⟨"b2", "Bob", "bob", 50⟩
    (by decide) (by decide) (by decide) (by decide) (by decide) (by decide)

/-! ### Claim C9: non-negativity of balances -/

theorem mem_setBalance_profiles {db : DB} {i : String} {b : ℤ} {p' : Profile}
    (h : p' ∈ (setBalance db i b).profiles) :
    p'.balance = b ∨ ∃ p, p ∈ db.profiles ∧ p'.balance = p.balance := by
  unfold setBalance at h
  simp only [List.mem_map] at h
  obtain ⟨p, hp, he⟩ := h
  by_cases hc : (p.id == i) = true
  · left
    rw [← he]
    simp [hc]
  · right
    refine ⟨p, hp, ?_⟩
    rw [← he]
    simp [hc]

/-- Whatever the outcome, a `sendFunds` run starting from a database whose
balances are all non-negative ends in a database whose balances are all
non-negative. -/
theorem sendFunds_preserves_nonneg {req : TransactionRequest} {faults : DbFaults}
    {now : Nat} {db : DB} {o : SendOutcome} {db' : DB}
    (h : sendFunds req faults now db = (o, db'))
    (hnn : ∀ p ∈ db.profiles, 0 ≤ p.balance) :
    ∀ p ∈ db'.profiles, 0 ≤ p.balance := by
  cases o with
  | ok tx =>
    obtain ⟨sp, rp, hamt, _, _, _, _, _, _, hs, hr, hbal, _, hdb⟩ := sendFunds_ok_elim h
    subst hdb
    intro p hp
    rcases mem_setBalance_profiles hp with hb | ⟨q, hq, hbe⟩
    · rw [hb]
      have := hnn rp (mem_of_getProfileById hr)
      linarith
    · rcases mem_setBalance_profiles hq with hb2 | ⟨q2, hq2, hbe2⟩
      · rw [hbe, hb2]
        linarith
      · rw [hbe, hbe2]
        exact hnn q2 hq2
  | err e =>
    rcases sendFunds_err_elim h with ⟨hdb, _, _⟩ | ⟨sp, rp, tx, _, _, _, _, _, _, hdb⟩ |
      ⟨sp, rp, tx, _, hs, _, hbal, _, _, hdb⟩
    · subst hdb; exact hnn
    · subst hdb; exact hnn
    · subst hdb
      intro p hp
      rcases mem_setBalance_profiles hp with hb | ⟨q, hq, hbe⟩
      · rw [hb]
        linarith
      · rw [hbe]
        exact hnn q hq

/-- Claim C9: starting from non-negative balances, every `sendFunds` run —
successful or failed — leaves every balance non-negative; and a transfer
that would drive the sender's balance negative (after passing the earlier
amount, self-transfer and sender-lookup checks) fails with the
insufficient-balance error and mutates nothing. -/
theorem c9_balances_nonnegative (req : TransactionRequest) (faults : DbFaults)
    (now : Nat) (db : DB)
    (hnn : ∀ p ∈ db.profiles, 0 ≤ p.balance) :
    (∀ p ∈ (sendFunds req faults now db).2.profiles, 0 ≤ p.balance) ∧
    (∀ sp, 0 < req.amount → req.sender_id ≠ req.receiver_id →
      (if faults.senderSelectFails then Option.none else getProfileById db req.sender_id) = some sp →
      sp.balance - req.amount < 0 →
      sendFunds req faults now db = (SendOutcome.err (SendError.insufficientBalance sp.balance), db)) := by
  constructor
  · exact sendFunds_preserves_nonneg (Prod.mk.eta (p := sendFunds req faults now db)).symm hnn
  · intro sp h1 h2 h3 h4
    exact (sendFunds_precheck req faults now db).2.2.2.1 sp h1 h2 h3 (by linarith)

theorem c9_balances_nonnegative_witness :
    sendFunds reqC3 DbFaults.none 0 dbC3 =
      (SendOutcome.err (SendError.insufficientBalance 10), dbC3) :=
  (c9_balances_nonnegative reqC3 DbFaults.none 0 dbC3 (by decide)).2
    ⟨"a1", "Alice", "alice", 10⟩ (by decide) (by decide) (by decide) (by decide)

/-! ### Claim C6: concurrent transfers -/

/-- Where an in-flight `sendFunds` call sits between its `await` points.
Each constructor carries the values the continuation has already read —
notably the sender/receiver profiles cached by the two selects, which the
later absolute balance writes use even if the database has changed in the
meantime. -/
inductive CallPhase where
  | initial
  | gotSender (sp : Profile)
  | gotReceiver (sp rp : Profile)
  | insertedTx (sp rp : Profile) (tx : TxRow)
  | debited (sp rp : Profile) (tx : TxRow)
  | finished (o : SendOutcome)
  deriving Repr, DecidableEq

/-- One in-flight `sendFunds` call: its request plus its progress. -/
structure CallState where
  req : TransactionRequest
  phase : CallPhase
  deriving Repr, DecidableEq

/-- The fault-free `sendFunds` cut at its `await` points: one atomic step per
Supabase call, exactly the segments the JavaScript event loop interleaves.
The pure checks between two awaits run inside the step of the call they
follow, as in the source. -/
def stepCall (now : Nat) (c : CallState) (db : DB) : CallState × DB :=
  match c.phase with
  | CallPhase.initial =>
    if c.req.amount ≤ 0 then
      ({ c with phase := CallPhase.finished (SendOutcome.err SendError.amountNotPositive) }, db)
    else if c.req.sender_id == c.req.receiver_id then
      ({ c with phase := CallPhase.finished (SendOutcome.err SendError.selfTransfer) }, db)
    else
      match getProfileById db c.req.sender_id with
      | Option.none =>
        ({ c with phase := CallPhase.finished (SendOutcome.err SendError.senderNotFound) }, db)
      | some sp =>
        if sp.balance < c.req.amount then
          let o := SendOutcome.err (SendError.insufficientBalance sp.balance)
          ({ c with phase := CallPhase.finished o }, db)
        else ({ c with phase := CallPhase.gotSender sp }, db)
  | CallPhase.gotSender sp =>
    match getProfileById db c.req.receiver_id with
    | Option.none =>
      ({ c with phase := CallPhase.finished (SendOutcome.err SendError.receiverNotFound) }, db)
    | some rp => ({ c with phase := CallPhase.gotReceiver sp rp }, db)
  | CallPhase.gotReceiver sp rp =>
    let tx : TxRow :=
      { sender_id := c.req.sender_id
        receiver_id := c.req.receiver_id
        amount := c.req.amount
        currency := c.req.currency.getD "PHP"
        timestamp := now
        description := descriptionOf c.req sp rp }
    ({ c with phase := CallPhase.insertedTx sp rp tx }, insertTx db tx)
  | CallPhase.insertedTx sp rp tx =>
    ({ c with phase := CallPhase.debited sp rp tx },
      setBalance db c.req.sender_id (sp.balance - c.req.amount))
  | CallPhase.debited _sp rp tx =>
    ({ c with phase := CallPhase.finished (SendOutcome.ok tx) },
      setBalance db c.req.receiver_id (rp.balance + c.req.amount))
  | CallPhase.finished _ => (c, db)

/-- Run two concurrent `sendFunds` calls under an explicit schedule:
`true` steps the first call, `false` steps the second. -/
def runSchedule (now : Nat) : List Bool → CallState × CallState × DB → CallState × CallState × DB
  | [], st => st
  | pick :: rest, (c1, c2, db) =>
    if pick then
      let s := stepCall now c1 db
      runSchedule now rest (s.1, c2, s.2)
    else
      let s := stepCall now c2 db
      runSchedule now rest (c1, s.1, s.2)

/-- Alice holds 100; Bob and Carol hold 0. -/
def dbC6 : DB :=
  ⟨[⟨"a1", "Alice", "alice", 100⟩, ⟨"b2", "Bob", "bob", 0⟩, ⟨"c3", "Carol", "carol", 0⟩], []⟩

/-- First concurrent request: Alice sends 60 to Bob. -/
def reqC6a : TransactionRequest := ⟨"a1", "b2", 60, Option.none, Option.none⟩

/-- Second concurrent request: Alice sends 70 to Carol. -/
def reqC6b : TransactionRequest := ⟨"a1", "c3", 70, Option.none, Option.none⟩

/-- The interleaving in which both calls read Alice's balance before either
writes it, then each runs to completion. -/
def schedC6 : List Bool :=
  [true, false, true, true, true, true, false, false, false, false]

/-- The final state of the two interleaved calls. -/
def runC6 : CallState × CallState × DB :=
  runSchedule 0 schedC6 (⟨reqC6a, CallPhase.initial⟩, ⟨reqC6b, CallPhase.initial⟩, dbC6)

/-- Claim C6 is violated by the code: two concurrent transfers out of
Alice's balance of 100, for amounts 60 and 70 (summing to 130 > 100), can
BOTH succeed when they interleave so that both balance reads happen before
either absolute balance write.  Bob is credited 60 and Carol 70 while Alice
is only debited down to 30 (the second stale write 100 - 70 wins), so the
claimed behavior — the non-fitting call failing with the
insufficient-balance error — does not happen, and 30 pesos worth of balance
is created out of nothing. -/
theorem c6_concurrent_transfers_unsafe :
    (∃ tx1, runC6.1.phase = CallPhase.finished (SendOutcome.ok tx1)) ∧
    (∃ tx2, runC6.2.1.phase = CallPhase.finished (SendOutcome.ok tx2)) ∧
    getBalance dbC6 "a1" = some 100 ∧
    reqC6a.amount + reqC6b.amount = 130 ∧
    getBalance runC6.2.2 "a1" = some 30 ∧
    getBalance runC6.2.2 "b2" = some 60 ∧
    getBalance runC6.2.2 "c3" = some 70 := by
  refine ⟨⟨⟨"a1", "b2", 60, "PHP", 0, "Transfer from Alice to Bob"⟩, by decide⟩,
    ⟨⟨"a1", "c3", 70, "PHP", 0, "Transfer from Alice to Carol"⟩, by decide⟩,
    by decide, by decide, by decide, by decide, by decide⟩

/-! ### Claim C7: recipient resolution -/

/-- Character class `[0-9a-f]` under the regex's `/i` flag. -/
def isHexDigit (c : Char) : Bool :=
  ('0' ≤ c && c ≤ '9') || ('a' ≤ c && c ≤ 'f') || ('A' ≤ c && c ≤ 'F')

/-- The UUID-shape test of `getUserByIdentifier` (line 129): 36 characters,
hyphens at positions 8, 13, 18 and 23, case-insensitive hex digits
everywhere else — the regex
`^[0-9a-f]{8}-[0-9a-f]{4}-[0-9a-f]{4}-[0-9a-f]{4}-[0-9a-f]{12}$/i`. -/
def isUUID (s : String) : Bool :=
  let cs := s.data
  cs.length == 36 &&
    (List.range 36).all (fun i =>
      if i == 8 || i == 13 || i == 18 || i == 23 then cs.getD i ' ' == '-'
      else isHexDigit (cs.getD i ' '))

/-- Model of `identifier.startsWith('@') ? identifier.slice(1) : identifier`
(line 142): strip a single leading `@`. -/
def stripAt (s : String) : String :=
  match s.data with
  | '@' :: rest => String.mk rest
  | _ => s

/-- Translation of `TransactionService.getUserByIdentifier` from
`src/lib/transactionService.ts` lines 126-156. -/
def getUserByIdentifier (db : DB) (identifier : String) : Option Profile :=
  match (if isUUID identifier then getProfileById db identifier else Option.none) with
  | some p => some p
  | Option.none => getProfileByUsername db (stripAt identifier)

/-- Claim C7: resolution tries an id-shaped (UUID) match first; when the
input is not UUID-shaped or the id lookup yields nothing, it falls back to
a handle lookup with a single leading `@` stripped; when neither matches it
returns nothing. -/
theorem c7_identifier_resolution (db : DB) (identifier : String) :
    (∀ p, isUUID identifier = true → getProfileById db identifier = some p →
      getUserByIdentifier db identifier = some p) ∧
    (isUUID identifier = false ∨ getProfileById db identifier = Option.none →
      getUserByIdentifier db identifier = getProfileByUsername db (stripAt identifier)) ∧
    (isUUID identifier = false ∨ getProfileById db identifier = Option.none →
      getProfileByUsername db (stripAt identifier) = Option.none →
      getUserByIdentifier db identifier = Option.none) := by
  refine ⟨?_, ?_, ?_⟩
  · intro p hu hid
    unfold getUserByIdentifier
    rw [if_pos hu, hid]
  · intro h
    unfold getUserByIdentifier
    rcases h with hu | hid
    · rw [hu]
      simp
    · by_cases hu : isUUID identifier = true
      · rw [if_pos hu, hid]
      · rw [if_neg hu]
  · intro h hn
    unfold getUserByIdentifier
    rcases h with hu | hid
    · rw [hu]
      simpa using hn
    · by_cases hu : isUUID identifier = true
      · rw [if_pos hu, hid]
        exact hn
      · rw [if_neg hu]
        exact hn

theorem c7_identifier_resolution_witness :
    getUserByIdentifier dbW "@alice" = some ⟨"a1", "Alice", "alice", 1000⟩ := by
  rw [(c7_identifier_resolution dbW "@alice").2.1 (Or.inl (by decide))]
  decide

/-! ### Claim C8: transaction history -/

/-- The read-time perspective of a history entry (`type` field computed in
`getTransactionHistory`, line 183). -/
inductive TxPerspective where
  | send
  | receive
  deriving Repr, DecidableEq

/-- The `.or('sender_id.eq.userId,receiver_id.eq.userId')` filter of the
history query. -/
def txInvolves (userId : String) (t : TxRow) : Bool :=
  t.sender_id == userId || t.receiver_id == userId

/-- Newest-first comparison used to model
`.order('timestamp', { ascending: false })`. -/
def tsGE (a b : TxRow) : Prop := b.timestamp ≤ a.timestamp

instance : DecidableRel tsGE := fun a b => Nat.decLe b.timestamp a.timestamp

instance : IsTotal TxRow tsGE :=
  ⟨fun a b => by unfold tsGE; exact Nat.le_total b.timestamp a.timestamp⟩

instance : IsTrans TxRow tsGE :=
  ⟨fun _ _ _ hab hbc => Nat.le_trans hbc hab⟩

/-- Translation of `TransactionService.getTransactionHistory` from
`src/lib/transactionService.ts` lines 162-191: filter the rows mentioning
the user, newest first, at most `limit` rows, and pair each row with the
perspective computed at read time (`send` if the user is the sender, else
`receive`); the stored row carries no perspective field. -/
def getTransactionHistory (db : DB) (userId : String) (limit : Nat) :
    List (TxRow × TxPerspective) :=
  ((List.insertionSort tsGE (db.transactions.filter (txInvolves userId))).take limit).map
    (fun t => (t, if t.sender_id == userId then TxPerspective.send else TxPerspective.receive))

/-- Claim C8: every entry returned by the history query is a stored
transaction row in which the queried account is the sender or the receiver;
the result holds at most `limit` entries, is ordered by timestamp
descending, and each entry's perspective is computed at read time as `send`
exactly when the row's sender is the queried account. -/
theorem c8_history_query (db : DB) (userId : String) (limit : Nat) :
    (∀ e ∈ getTransactionHistory db userId limit,
      e.1 ∈ db.transactions ∧ (e.1.sender_id = userId ∨ e.1.receiver_id = userId) ∧
      e.2 = (if e.1.sender_id = userId then TxPerspective.send else TxPerspective.receive)) ∧
    (getTransactionHistory db userId limit).length ≤ limit ∧
    List.Sorted (fun a b : TxRow × TxPerspective => b.1.timestamp ≤ a.1.timestamp)
      (getTransactionHistory db userId limit) := by
  refine ⟨?_, ?_, ?_⟩
  · intro e he
    unfold getTransactionHistory at he
    rw [List.mem_map] at he
    obtain ⟨t, ht, rfl⟩ := he
    have ht1 : t ∈ List.insertionSort tsGE (db.transactions.filter (txInvolves userId)) :=
      List.mem_of_mem_take ht
    have ht2 : t ∈ db.transactions.filter (txInvolves userId) :=
      (List.perm_insertionSort tsGE _).mem_iff.mp ht1
    have ht3 := List.mem_filter.mp ht2
    refine ⟨ht3.1, ?_, ?_⟩
    · have := ht3.2
      simp only [txInvolves, Bool.or_eq_true, beq_iff_eq] at this
      exact this
    · by_cases hsend : t.sender_id = userId <;> simp [hsend]
  · unfold getTransactionHistory
    rw [List.length_map, List.length_take]
    exact min_le_left _ _
  · unfold getTransactionHistory
    refine List.pairwise_map.mpr ?_
    have h1 : List.Sorted tsGE (List.insertionSort tsGE (db.transactions.filter (txInvolves userId))) :=
      List.sorted_insertionSort tsGE _
    exact (h1.sublist (List.take_sublist _ _)).imp (fun h => h)

/-- A concrete transaction table: two rows touch account `a1`, one row does
not, timestamps out of order. -/
def dbC8 : DB :=
  ⟨[], [⟨"a1", "b2", 10, "PHP", 1, "x"⟩, ⟨"z9", "y8", 5, "PHP", 9, "y"⟩,
        ⟨"b2", "a1", 7, "PHP", 3, "z"⟩]⟩

theorem c8_history_query_witness :
    (⟨"b2", "a1", 7, "PHP", 3, "z"⟩, TxPerspective.receive).1 ∈ dbC8.transactions ∧
    (getTransactionHistory dbC8 "a1" 50).length ≤ 50 := by
  constructor
  · exact ((c8_history_query dbC8 "a1" 50).1
      (⟨"b2", "a1", 7, "PHP", 3, "z"⟩, TxPerspective.receive) (by decide)).1
  · exact (c8_history_query dbC8 "a1" 50).2.1

/-! ### Claim C10: QR payload round trip -/

/-- JSON values, as produced by `JSON.parse` (numbers as integers, which
covers every number this code writes: `Date.now()`). -/
inductive Json where
  | null
  | bool (b : Bool)
  | num (n : ℤ)
  | str (s : String)
  | arr (elems : List Json)
  | obj (fields : List (String × Json))

/-- JavaScript property access `parsed.k`: on an object, the first field
named `k` (or undefined, modelled as `none`); on any non-object, undefined
(a `TypeError` on `null` is caught by the surrounding `try`, with the same
observable result). -/
def getField : Json → String → Option Json
  | Json.obj fields, k => (fields.find? (fun f => f.1 == k)).map (fun f => f.2)
  | _, _ => Option.none

/-- JavaScript truthiness of `parsed.userId` (undefined, null, false, 0 and
the empty string are falsy). -/
def truthy : Option Json → Bool
  | Option.none => false
  | some Json.null => false
  | some (Json.bool b) => b
  | some (Json.num n) => n != 0
  | some (Json.str s) => s != ""
  | some (Json.arr _) => true
  | some (Json.obj _) => true

/-- The strict comparison `parsed.type === 'lapore-finance-transfer'`. -/
def isTransferTag : Option Json → Bool
  | some (Json.str s) => s == "lapore-finance-transfer"
  | _ => false

/-- Translation of `TransactionService.generateReceiveQRData` (lines 196-203) at the JSON
level: `JSON.stringify` of the object literal, with an undefined `username`
omitted as `JSON.stringify` does.  `now` stands for `Date.now()`. -/
def generateReceiveQRData (userId : String) (username : Option String) (now : ℤ) : Json :=
  Json.obj ([("type", Json.str "lapore-finance-transfer"), ("userId", Json.str userId)] ++
    (match username with
     | some u => [("username", Json.str u)]
     | Option.none => []) ++
    [("timestamp", Json.num now)])

/-- Translation of `TransactionService.parseQRData` (lines 208-221): the input is the
result of `JSON.parse` (`none` when parsing threw); the payload is returned
when the type tag matches strictly and `userId` is truthy, else `null`. -/
def parseQRData (input : Option Json) : Option (Json × Option Json) :=
  match input with
  | Option.none => Option.none
  | some parsed =>
    if isTransferTag (getField parsed "type") && truthy (getField parsed "userId") then
      some ((getField parsed "userId").getD Json.null, getField parsed "username")
    else Option.none

/-- Claim C10: for every non-empty `userId` and every `username`,
`parseQRData` applied to `generateReceiveQRData`'s payload returns exactly
that `userId` and `username` (round trip); and `parseQRData` returns null
on unparseable input, on any payload whose `type` tag is not the string
`lapore-finance-transfer`, and on any payload whose `userId` is missing or
the empty string. -/
theorem c10_qr_round_trip (userId : String) (username : Option String)
    (now : ℤ) (j : Json) :
    (userId ≠ "" →
      parseQRData (some (generateReceiveQRData userId username now)) =
        some (Json.str userId, username.map Json.str)) ∧
    parseQRData Option.none = Option.none ∧
    (isTransferTag (getField j "type") = false → parseQRData (some j) = Option.none) ∧
    (getField j "userId" = Option.none ∨ getField j "userId" = some (Json.str "") →
      parseQRData (some j) = Option.none) := by
  refine ⟨?_, rfl, ?_, ?_⟩
  · intro h
    have hb : (userId != "") = true := bne_iff_ne.mpr h
    cases username with
    | none =>
      simp only [parseQRData, generateReceiveQRData, getField, List.append_nil, List.find?,
        truthy, isTransferTag]
      simp [hb]
    | some u =>
      simp only [parseQRData, generateReceiveQRData, getField, List.append_nil, List.find?,
        truthy, isTransferTag]
      simp [hb]
  · intro h
    simp only [parseQRData, h, Bool.false_and, if_neg]
    simp
  · intro h
    rcases h with h | h <;>
      simp [parseQRData, h, truthy]

theorem c10_qr_round_trip_witness :
    parseQRData (some (generateReceiveQRData "u1" (some "alice") 5)) =
      some (Json.str "u1", some (Json.str "alice")) :=
  (c10_qr_round_trip "u1" (some "alice") 5 Json.null).1 (by decide)

end Lapore
